import Mathlib

/-!
Verification of the core playback engine of the FPL FFmpeg demo player
(src/demos/FPL_FFMpeg/fpl_ffmpeg.cpp), as a shallow embedding in Lean 4.

Machine doubles are modelled exactly: a value is either NaN or a rational.
All comparisons follow IEEE semantics for NaN (any ordered comparison with
NaN is false); arithmetic is exact, which is adequate because every claim
checked here is decided by comparisons and control flow, never by rounding.

Machine integers (int32_t / int64_t serials, counts, sizes) are modelled as
Int; no reachable state of the claims below approaches their overflow range.
The byte size of a heap packet node (sizeof(PacketList), platform dependent)
is threaded through as an explicit parameter.
-/

/-- A C `double` value considered by the player: NaN or an exact rational. -/
inductive EDouble where
  | nan : EDouble
  | val : ℚ → EDouble
deriving DecidableEq, Repr

namespace EDouble

/-- isnan(x) -/
def isNaN : EDouble → Bool
  | nan => true
  | val _ => false

/-- IEEE addition restricted to finite values: NaN absorbs. -/
def add : EDouble → EDouble → EDouble
  | val a, val b => val (a + b)
  | _, _ => nan

/-- IEEE subtraction: NaN absorbs. -/
def sub : EDouble → EDouble → EDouble
  | val a, val b => val (a - b)
  | _, _ => nan

/-- IEEE multiplication: NaN absorbs. -/
def mul : EDouble → EDouble → EDouble
  | val a, val b => val (a * b)
  | _, _ => nan

/-- Unary negation. -/
def neg : EDouble → EDouble
  | val a => val (-a)
  | nan => nan

/-- fabs(x) -/
def abs : EDouble → EDouble
  | val a => val |a|
  | nan => nan

/-- C `<` : false when either operand is NaN. -/
def blt : EDouble → EDouble → Bool
  | val a, val b => decide (a < b)
  | _, _ => false

/-- C `<=` : false when either operand is NaN. -/
def ble : EDouble → EDouble → Bool
  | val a, val b => decide (a ≤ b)
  | _, _ => false

/-- C `>` : false when either operand is NaN. -/
def bgt (a b : EDouble) : Bool := blt b a

/-- C `>=` : false when either operand is NaN. -/
def bge (a b : EDouble) : Bool := ble b a

instance : Add EDouble := ⟨EDouble.add⟩
instance : Sub EDouble := ⟨EDouble.sub⟩
instance : Mul EDouble := ⟨EDouble.mul⟩
instance : Neg EDouble := ⟨EDouble.neg⟩

end EDouble

/-- The platform layer macro fplMax(a, b) = ((a) > (b)) ? (a) : (b),
applied to doubles. -/
def fplMaxE (a b : EDouble) : EDouble := if EDouble.bgt a b then a else b

/-- The platform layer macro fplMin(a, b) = ((a) < (b)) ? (a) : (b),
applied to doubles. -/
def fplMinE (a b : EDouble) : EDouble := if EDouble.blt a b then a else b

/-- FFMAX(a, b) = ((a) > (b)) ? (a) : (b), applied to doubles. -/
def ffmaxE (a b : EDouble) : EDouble := if EDouble.bgt a b then a else b

-- Constants of the source (fpl_ffmpeg.cpp, constants block).

/-- MAX_PACKET_QUEUE_SIZE = fplMegaBytes(16) -/
def MAX_PACKET_QUEUE_SIZE : Int := 16 * 1024 * 1024

/-- MIN_PACKET_FRAMES = 25 -/
def MIN_PACKET_FRAMES : Int := 25

/-- EXTERNAL_CLOCK_MIN_FRAMES = 2 -/
def EXTERNAL_CLOCK_MIN_FRAMES : Int := 2

/-- EXTERNAL_CLOCK_MAX_FRAMES = 10 -/
def EXTERNAL_CLOCK_MAX_FRAMES : Int := 10

/-- EXTERNAL_CLOCK_SPEED_MIN = 0.900 -/
def EXTERNAL_CLOCK_SPEED_MIN : ℚ := 9/10

/-- EXTERNAL_CLOCK_SPEED_MAX = 1.010 -/
def EXTERNAL_CLOCK_SPEED_MAX : ℚ := 101/100

/-- EXTERNAL_CLOCK_SPEED_STEP = 0.001 -/
def EXTERNAL_CLOCK_SPEED_STEP : ℚ := 1/1000

/-- AV_SYNC_THRESHOLD_MIN = 0.04 -/
def AV_SYNC_THRESHOLD_MIN : ℚ := 4/100

/-- AV_SYNC_THRESHOLD_MAX = 0.1 -/
def AV_SYNC_THRESHOLD_MAX : ℚ := 1/10

/-- AV_NOSYNC_THRESHOLD = 10.0 -/
def AV_NOSYNC_THRESHOLD : ℚ := 10

/-- AV_SYNC_FRAMEDUP_THRESHOLD = 0.1 -/
def AV_SYNC_FRAMEDUP_THRESHOLD : ℚ := 1/10

/-- AV_TIME_BASE = 1000000 -/
def AV_TIME_BASE : Int := 1000000

--
-- Packet queue (source: struct PacketQueue and its operations)
--

/-- The fields of an AVPacket the queue logic reads.  The flush sentinel is
recognised in the source by pointer identity with globalFlushPacket; that
identity is modelled by the isFlush tag. -/
structure AVPacketM where
  size : Int
  duration : Int
  streamIndex : Int
  isFlush : Bool
deriving DecidableEq, Repr

/-- globalFlushPacket: a zeroed AVPacket whose data points at itself. -/
def globalFlushPacket : AVPacketM :=
  { size := 0, duration := 0, streamIndex := 0, isFlush := true }

/-- A PacketList node: the packet plus the serial it was tagged with. -/
structure PacketListM where
  packet : AVPacketM
  serial : Int
deriving DecidableEq, Repr

/-- struct PacketQueue (first/last linked list modelled as a List). -/
structure PacketQueue where
  packets : List PacketListM
  size : Int
  duration : Int
  packetCount : Int
  serial : Int
deriving DecidableEq, Repr

/-- A freshly initialised PacketQueue (InitPacketQueue zero-initialises). -/
def initPacketQueue : PacketQueue :=
  { packets := [], size := 0, duration := 0, packetCount := 0, serial := 0 }

/-- PushPacket: bump serial first when the packet is the flush sentinel, tag
the node, append at the tail, update size / duration / packetCount.
nodeBytes stands for sizeof(PacketList). -/
def PushPacket (nodeBytes : Int) (q : PacketQueue) (p : AVPacketM) : PacketQueue :=
  let serial := if p.isFlush then q.serial + 1 else q.serial
  { packets := q.packets ++ [{ packet := p, serial := serial }]
    size := q.size + (p.size + nodeBytes)
    duration := q.duration + p.duration
    packetCount := q.packetCount + 1
    serial := serial }

/-- PopPacket: detach the head if present, updating the aggregates. -/
def PopPacket (nodeBytes : Int) (q : PacketQueue) : Option (PacketListM × PacketQueue) :=
  match q.packets with
  | [] => none
  | p :: rest =>
    some (p,
      { packets := rest
        size := q.size - (p.packet.size + nodeBytes)
        duration := q.duration - p.packet.duration
        packetCount := q.packetCount - 1
        serial := q.serial })

/-- FlushPacketQueue: drop every node and reset the aggregates; the serial
is not touched. -/
def FlushPacketQueue (q : PacketQueue) : PacketQueue :=
  { packets := [], size := 0, duration := 0, packetCount := 0, serial := q.serial }

/-- PushNullPacket: push a zero-size data packet with the given stream index. -/
def PushNullPacket (nodeBytes : Int) (q : PacketQueue) (streamIndex : Int) : PacketQueue :=
  PushPacket nodeBytes q { size := 0, duration := 0, streamIndex := streamIndex, isFlush := false }

/-- PushFlushPacket: push the global flush sentinel. -/
def PushFlushPacket (nodeBytes : Int) (q : PacketQueue) : PacketQueue :=
  PushPacket nodeBytes q globalFlushPacket

/-- StartPacketQueue: push an initial flush packet. -/
def StartPacketQueue (nodeBytes : Int) (q : PacketQueue) : PacketQueue :=
  PushFlushPacket nodeBytes q

/-- The operations a PacketQueue undergoes. -/
inductive PQOp where
  | push (p : AVPacketM)
  | pushNull (streamIndex : Int)
  | pushFlush
  | start
  | pop
  | flushQueue
deriving DecidableEq, Repr

/-- Apply one operation to a queue state. -/
def applyPQOp (nodeBytes : Int) (q : PacketQueue) : PQOp → PacketQueue
  | .push p => PushPacket nodeBytes q p
  | .pushNull idx => PushNullPacket nodeBytes q idx
  | .pushFlush => PushFlushPacket nodeBytes q
  | .start => StartPacketQueue nodeBytes q
  | .pop =>
    match PopPacket nodeBytes q with
    | none => q
    | some (_, q2) => q2
  | .flushQueue => FlushPacketQueue q

/-- Apply a sequence of operations, first operation first. -/
def applyPQOps (nodeBytes : Int) (ops : List PQOp) (q : PacketQueue) : PacketQueue :=
  ops.foldl (applyPQOp nodeBytes) q

/-- How much one operation adds to the serial: 1 for a flush-packet push,
0 for everything else. -/
def pqOpSerialBump : PQOp → Int
  | .push p => if p.isFlush then 1 else 0
  | .pushFlush => 1
  | .start => 1
  | _ => 0

/-- Total serial bump of a sequence of operations. -/
def pqOpsSerialBump (ops : List PQOp) : Int :=
  (ops.map pqOpSerialBump).sum

--
-- Frame queue (source: struct FrameQueue and its operations)
--

/-- MAX_FRAME_QUEUE_COUNT = fplMax(MAX_AUDIO_FRAME_QUEUE_COUNT = 8,
MAX_VIDEO_FRAME_QUEUE_COUNT = 4). -/
def MAX_FRAME_QUEUE_COUNT : Int := 8

/-- The index and counter fields of struct FrameQueue; the frame slots
themselves carry no information the ring invariants depend on. -/
structure FrameQueue where
  readIndex : Int
  writeIndex : Int
  count : Int
  readIndexShown : Int
  capacity : Int
  keepLast : Bool
  stopped : Bool
deriving DecidableEq, Repr

/-- InitFrameQueue: zero everything, clamp the capacity to
MAX_FRAME_QUEUE_COUNT. -/
def initFrameQueue (capacity : Int) (keepLast : Bool) : FrameQueue :=
  { readIndex := 0, writeIndex := 0, count := 0, readIndexShown := 0
    capacity := min capacity MAX_FRAME_QUEUE_COUNT
    keepLast := keepLast, stopped := false }

/-- The success condition of PeekWritableFromFrameQueue: it fails when
count >= capacity or the stop flag is set. -/
def PeekWritableOk (q : FrameQueue) : Bool :=
  decide (q.count < q.capacity) && !q.stopped

/-- The success condition of PeekReadableFromFrameQueue: it fails when
count - readIndexShown <= 0 or the stop flag is set. -/
def PeekReadableOk (q : FrameQueue) : Bool :=
  decide (q.count - q.readIndexShown > 0) && !q.stopped

/-- NextWritable: advance writeIndex modulo capacity, increment count. -/
def NextWritable (q : FrameQueue) : FrameQueue :=
  { q with writeIndex := (q.writeIndex + 1) % q.capacity, count := q.count + 1 }

/-- NextReadable: with keepLast and readIndexShown = 0 just flip
readIndexShown to 1; otherwise free the oldest slot, advance readIndex
modulo capacity and decrement count. -/
def NextReadable (q : FrameQueue) : FrameQueue :=
  if q.keepLast && decide (q.readIndexShown = 0) then
    { q with readIndexShown := 1 }
  else
    { q with readIndex := (q.readIndex + 1) % q.capacity, count := q.count - 1 }

/-- GetFrameQueueRemainingCount. -/
def GetFrameQueueRemainingCount (q : FrameQueue) : Int :=
  q.count - q.readIndexShown

/-- One legal step of a FrameQueue under the usage discipline of the claim:
NextWritable only after a successful PeekWritableFromFrameQueue, NextReadable
only after a successful PeekReadableFromFrameQueue. -/
inductive FQStep : FrameQueue → FrameQueue → Prop where
  | commitWrite {q : FrameQueue} : PeekWritableOk q = true → FQStep q (NextWritable q)
  | advanceRead {q : FrameQueue} : PeekReadableOk q = true → FQStep q (NextReadable q)

/-- States reachable from an initial FrameQueue state by legal steps. -/
inductive FQReachable (init : FrameQueue) : FrameQueue → Prop where
  | refl : FQReachable init init
  | step {q q2 : FrameQueue} : FQReachable init q → FQStep q q2 → FQReachable init q2

--
-- Clock (source: struct Clock and its operations)
--

/-- struct Clock.  The queueSerial pointer is modelled by passing the
referenced serial value explicitly to GetClock; speed is kept as an exact
rational because the source only ever assigns it finite constants. -/
structure Clock where
  pts : EDouble
  ptsDrift : EDouble
  lastUpdated : EDouble
  speed : ℚ
  serial : Int
  isPaused : Bool
deriving DecidableEq, Repr

/-- GetClock: NaN when the referenced queue serial differs from the clock
serial; pts when paused; otherwise the drift formula.  time stands for
av_gettime_relative() / AV_TIME_BASE. -/
def GetClock (c : Clock) (queueSerial : Int) (time : EDouble) : EDouble :=
  if queueSerial ≠ c.serial then .nan
  else if c.isPaused then c.pts
  else c.ptsDrift + time - (time - c.lastUpdated) * .val (1 - c.speed)

/-- SetClockAt. -/
def SetClockAt (c : Clock) (pts : EDouble) (serial : Int) (time : EDouble) : Clock :=
  { c with pts := pts, lastUpdated := time, ptsDrift := pts - time, serial := serial }

/-- SetClock (the source reads the monotonic clock itself; here the current
time is a parameter). -/
def SetClock (c : Clock) (pts : EDouble) (serial : Int) (time : EDouble) : Clock :=
  SetClockAt c pts serial time

/-- SetClockSpeed: re-anchor at the current reading, then change speed. -/
def SetClockSpeed (c : Clock) (queueSerial : Int) (speed : ℚ) (time : EDouble) : Clock :=
  { SetClock c (GetClock c queueSerial time) c.serial time with speed := speed }

/-- InitClock: speed 1, unpaused, then SetClock(NaN, -1). -/
def InitClock (time : EDouble) : Clock :=
  SetClock
    { pts := .nan, ptsDrift := .nan, lastUpdated := .nan
      speed := 1, serial := 0, isPaused := false }
    .nan (-1) time

/-- SyncClockToSlave: snap this clock to the slave when the slave reading is
not NaN and this reading is NaN or more than AV_NOSYNC_THRESHOLD away. -/
def SyncClockToSlave (c slave : Clock) (cQueueSerial slaveQueueSerial : Int)
    (time : EDouble) : Clock :=
  let clock := GetClock c cQueueSerial time
  let slaveClock := GetClock slave slaveQueueSerial time
  if !slaveClock.isNaN &&
     (clock.isNaN || EDouble.bgt ((clock - slaveClock).abs) (.val AV_NOSYNC_THRESHOLD)) then
    SetClock c slaveClock slave.serial time
  else c

--
-- Frames (source: struct Frame, GetFrameDuration)
--

/-- The fields of struct Frame that GetFrameDuration reads. -/
structure FrameM where
  pts : EDouble
  duration : EDouble
  serial : Int
deriving DecidableEq, Repr

/-- GetFrameDuration: next.pts - cur.pts when the serials match and that
difference is a valid gap (not NaN, positive, at most maxFrameDuration);
cur.duration when the serials match but the gap is invalid; 0.0 when the
serials differ. -/
def GetFrameDuration (maxFrameDuration : EDouble) (cur next : FrameM) : EDouble :=
  if cur.serial = next.serial then
    let duration := next.pts - cur.pts
    if duration.isNaN || duration.ble (.val 0) || EDouble.bgt duration maxFrameDuration then
      cur.duration
    else
      duration
  else .val 0

--
-- Player state (the fragment of struct PlayerState the claims read)
--

/-- AVSyncType. -/
inductive AVSyncType where
  | AudioMaster
  | VideoMaster
  | ExternalClock
deriving DecidableEq, Repr

/-- The fields of struct MediaStream (plus the AVStream data the reader
consults: disposition, time base, average frame rate). -/
structure MediaStreamM where
  streamIndex : Int
  isValid : Bool
  attachedPic : Bool
  timeBase : ℚ
  avgFrameRateNum : Int
  avgFrameRateDen : Int
deriving DecidableEq, Repr

/-- The fields of struct Decoder the reader and scheduler touch. -/
structure DecoderM where
  packetsQueue : PacketQueue
  isEOF : Bool
  resumeSignaled : Bool
deriving DecidableEq, Repr

/-- struct SeekState.  seekFlags always contains AVSEEK_FLAG_ANY; the byte
flag is the only other bit SeekStream may set, so it is modelled as a Bool. -/
structure SeekStateM where
  pos : Int
  rel : Int
  isByte : Bool
  isRequired : Bool
deriving DecidableEq, Repr

/-- The fragment of struct PlayerState used by the verified operations.
Per InitLoadState, the video clock references the video decoder packet
queue serial, the audio clock the audio decoder packet queue serial, and
the external clock its own serial field. -/
structure PlayerStateM where
  syncType : AVSyncType
  video : MediaStreamM
  audio : MediaStreamM
  videoDecoder : DecoderM
  audioDecoder : DecoderM
  videoClock : Clock
  audioClock : Clock
  externalClock : Clock
  maxFrameDuration : EDouble
  isInfiniteBuffer : Bool
  isPaused : Bool
  frameTimer : EDouble
  readPauseReturn : Int
  pauseNumFrames : Int
  pauseClock : EDouble
  step : Bool
  seek : SeekStateM
  readerIsEOF : Bool
deriving DecidableEq, Repr

/-- AVERROR(ENOSYS). -/
def AVERROR_ENOSYS : Int := -38

/-- The video clock reading: its queueSerial points at the video decoder
packet queue serial. -/
def GetVideoClockOf (s : PlayerStateM) (time : EDouble) : EDouble :=
  GetClock s.videoClock s.videoDecoder.packetsQueue.serial time

/-- The audio clock reading: its queueSerial points at the audio decoder
packet queue serial. -/
def GetAudioClockOf (s : PlayerStateM) (time : EDouble) : EDouble :=
  GetClock s.audioClock s.audioDecoder.packetsQueue.serial time

/-- The external clock reading: its queueSerial points at its own serial
field, so the serial check always passes. -/
def GetExternalClockOf (s : PlayerStateM) (time : EDouble) : EDouble :=
  GetClock s.externalClock s.externalClock.serial time

/-- GetMasterSyncType. -/
def GetMasterSyncType (s : PlayerStateM) : AVSyncType :=
  if s.syncType = AVSyncType.VideoMaster then
    if s.video.isValid then AVSyncType.VideoMaster else AVSyncType.AudioMaster
  else if s.syncType = AVSyncType.AudioMaster then
    if s.audio.isValid then AVSyncType.AudioMaster else AVSyncType.ExternalClock
  else AVSyncType.ExternalClock

/-- GetMasterClock. -/
def GetMasterClock (s : PlayerStateM) (time : EDouble) : EDouble :=
  match GetMasterSyncType s with
  | AVSyncType.VideoMaster => GetVideoClockOf s time
  | AVSyncType.AudioMaster => GetAudioClockOf s time
  | AVSyncType.ExternalClock => GetExternalClockOf s time

/-- GetMasterFrameRate: av_q2d(avg_frame_rate) of the first valid stream
whose frame-rate denominator is nonzero, else 0.0. -/
def GetMasterFrameRate (s : PlayerStateM) : EDouble :=
  if s.video.isValid && decide (s.video.avgFrameRateDen ≠ 0) then
    .val ((s.video.avgFrameRateNum : ℚ) / (s.video.avgFrameRateDen : ℚ))
  else if s.audio.isValid && decide (s.audio.avgFrameRateDen ≠ 0) then
    .val ((s.audio.avgFrameRateNum : ℚ) / (s.audio.avgFrameRateDen : ℚ))
  else .val 0

/-- StreamHasEnoughPackets: stream index invalid, attached picture, or more
than MIN_PACKET_FRAMES queued and (queue duration zero or more than one
second of queued duration in the stream time base). -/
def StreamHasEnoughPackets (stream : MediaStreamM) (streamIndex : Int)
    (q : PacketQueue) : Bool :=
  decide (streamIndex < 0) || stream.attachedPic ||
    (decide (q.packetCount > MIN_PACKET_FRAMES) &&
      (decide (q.duration = 0) || decide (stream.timeBase * (q.duration : ℚ) > 1)))

/-- The backpressure gate of PacketReadThreadProc: sleep 10 ms and loop when
the summed queue byte sizes exceed the budget (only with the infinite-buffer
setting off) or both streams report enough packets. -/
def ReaderShouldSleep (s : PlayerStateM) : Bool :=
  (!s.isInfiniteBuffer &&
    decide (s.audioDecoder.packetsQueue.size + s.videoDecoder.packetsQueue.size
      > MAX_PACKET_QUEUE_SIZE)) ||
  (StreamHasEnoughPackets s.audio s.audio.streamIndex s.audioDecoder.packetsQueue &&
   StreamHasEnoughPackets s.video s.video.streamIndex s.videoDecoder.packetsQueue)

/-- UpdateExternalClockSpeed. -/
def UpdateExternalClockSpeed (s : PlayerStateM) (time : EDouble) : PlayerStateM :=
  if (s.video.isValid &&
        decide (s.videoDecoder.packetsQueue.packetCount ≤ EXTERNAL_CLOCK_MIN_FRAMES)) ||
     (s.audio.isValid &&
        decide (s.audioDecoder.packetsQueue.packetCount ≤ EXTERNAL_CLOCK_MIN_FRAMES)) then
    { s with externalClock :=
        (SetClockSpeed s.externalClock s.externalClock.serial
          (max EXTERNAL_CLOCK_SPEED_MIN
            (s.externalClock.speed - EXTERNAL_CLOCK_SPEED_STEP)) time) }
  else if (!s.video.isValid ||
            decide (s.videoDecoder.packetsQueue.packetCount > EXTERNAL_CLOCK_MAX_FRAMES)) &&
          (!s.audio.isValid ||
            decide (s.audioDecoder.packetsQueue.packetCount > EXTERNAL_CLOCK_MAX_FRAMES)) then
    { s with externalClock :=
        (SetClockSpeed s.externalClock s.externalClock.serial
          (min EXTERNAL_CLOCK_SPEED_MAX
            (s.externalClock.speed + EXTERNAL_CLOCK_SPEED_STEP)) time) }
  else
    let speed := s.externalClock.speed
    if speed ≠ 1 then
      { s with externalClock :=
          (SetClockSpeed s.externalClock s.externalClock.serial
            (speed + EXTERNAL_CLOCK_SPEED_STEP * (1 - speed) / |1 - speed|) time) }
    else s

/-- ComputeVideoDelay. -/
def ComputeVideoDelay (s : PlayerStateM) (time : EDouble) (delay : EDouble) : EDouble :=
  if GetMasterSyncType s ≠ AVSyncType.VideoMaster then
    let videoClock := GetVideoClockOf s time
    let masterClock := GetMasterClock s time
    let diff := videoClock - masterClock
    let syncThreshold :=
      fplMaxE (.val AV_SYNC_THRESHOLD_MIN) (fplMinE (.val AV_SYNC_THRESHOLD_MAX) delay)
    if !diff.isNaN && EDouble.blt diff.abs s.maxFrameDuration then
      if diff.ble (-syncThreshold) then ffmaxE (.val 0) (delay + diff)
      else if EDouble.bge diff syncThreshold &&
              EDouble.bgt delay (.val AV_SYNC_FRAMEDUP_THRESHOLD) then delay + diff
      else if EDouble.bge diff syncThreshold then .val 2 * delay
      else delay
    else delay
  else delay

/-- StreamTogglePause: when leaving pause, advance frameTimer by the pause
span and re-anchor the video clock; in either direction re-anchor the
external clock and flip the pause flags of the state and all three clocks;
when entering pause, record the pause frame count and pause clock. -/
def StreamTogglePause (s : PlayerStateM) (time : EDouble) : PlayerStateM :=
  let s1 :=
    if s.isPaused then
      let sA := { s with frameTimer := s.frameTimer + (time - s.videoClock.lastUpdated) }
      let sB :=
        if sA.readPauseReturn ≠ AVERROR_ENOSYS then
          { sA with videoClock := { sA.videoClock with isPaused := false } }
        else sA
      { sB with videoClock :=
          (SetClock sB.videoClock
            (GetClock sB.videoClock sB.videoDecoder.packetsQueue.serial time)
            sB.videoClock.serial time) }
    else s
  let s2 := { s1 with externalClock :=
      (SetClock s1.externalClock (GetExternalClockOf s1 time) s1.externalClock.serial time) }
  let newPaused := !s2.isPaused
  let s3 := { s2 with
      isPaused := newPaused
      audioClock := { s2.audioClock with isPaused := newPaused }
      videoClock := { s2.videoClock with isPaused := newPaused }
      externalClock := { s2.externalClock with isPaused := newPaused } }
  if s3.isPaused then
    let frameRate0 := GetMasterFrameRate s3
    let frameRate :=
      if frameRate0.isNaN || EDouble.blt frameRate0 (.val 0) then EDouble.val 0 else frameRate0
    let clockCurrent0 := fplMaxE (.val 0) (GetMasterClock s3 time)
    let clockCurrent :=
      if clockCurrent0.isNaN || EDouble.blt clockCurrent0 (.val 0) then EDouble.val 0
      else clockCurrent0
    let pauseFrames :=
      match frameRate, clockCurrent with
      | .val fr, .val cc => if fr ≠ 0 then Int.floor (cc / (1 / fr)) else 0
      | _, _ => 0
    { s3 with pauseNumFrames := pauseFrames, pauseClock := clockCurrent }
  else s3

/-- StepToNextFrame: leave pause if paused, then request a single step. -/
def StepToNextFrame (s : PlayerStateM) (time : EDouble) : PlayerStateM :=
  let s1 := if s.isPaused then StreamTogglePause s time else s
  { s1 with step := true }

/-- The (min, target, max, backward) arguments the reader hands to the
avformat_seek_file facade: offsets of ±2 around the target for relative
seeks; a negative relative offset selects backward search. -/
def ReaderSeekBounds (seek : SeekStateM) : Int × Int × Int × Bool :=
  let seekMin := if seek.rel > 0 then seek.pos - seek.rel + 2 else -(2 ^ 63)
  let seekMax := if seek.rel < 0 then seek.pos - seek.rel - 2 else 2 ^ 63 - 1
  (seekMin, seek.pos, seekMax, seek.rel < 0)

/-- The seek block of PacketReadThreadProc, given the facade result of
avformat_seek_file.  On success: flush each valid stream's decoder packet
queue, push a flush packet, clear the decoder EOF flag and raise its resume
signal, then reset the external clock (NaN for a byte seek, else the target
in seconds).  Afterwards, unconditionally: clear the seek request and the
reader EOF flag, and step one frame when paused. -/
def ReaderSeekStep (nodeBytes : Int) (s : PlayerStateM) (seekResult : Int)
    (time : EDouble) : PlayerStateM :=
  if s.seek.isRequired then
    let s1 :=
      if seekResult < 0 then s
      else
        let sA :=
          if s.audio.isValid then
            { s with audioDecoder :=
                { packetsQueue :=
                    PushFlushPacket nodeBytes (FlushPacketQueue s.audioDecoder.packetsQueue)
                  isEOF := false
                  resumeSignaled := true } }
          else s
        let sB :=
          if sA.video.isValid then
            { sA with videoDecoder :=
                { packetsQueue :=
                    PushFlushPacket nodeBytes (FlushPacketQueue sA.videoDecoder.packetsQueue)
                  isEOF := false
                  resumeSignaled := true } }
          else sA
        if sB.seek.isByte then
          { sB with externalClock := (SetClock sB.externalClock .nan 0 time) }
        else
          { sB with externalClock :=
              (SetClock sB.externalClock
                (.val ((s.seek.pos : ℚ) / (AV_TIME_BASE : ℚ))) 0 time) }
    let s2 := { s1 with seek := { s1.seek with isRequired := false }, readerIsEOF := false }
    if s2.isPaused then StepToNextFrame s2 time else s2
  else s

--
-- Theorems
--

theorem applyPQOp_serial (nodeBytes : Int) (q : PacketQueue) (op : PQOp) :
    (applyPQOp nodeBytes q op).serial = q.serial + pqOpSerialBump op := by
  cases op with
  | push p =>
    by_cases h : p.isFlush <;>
      simp [applyPQOp, PushPacket, pqOpSerialBump, h]
  | pushNull idx =>
    simp [applyPQOp, PushNullPacket, PushPacket, pqOpSerialBump]
  | pushFlush =>
    simp [applyPQOp, PushFlushPacket, PushPacket, globalFlushPacket, pqOpSerialBump]
  | start =>
    simp [applyPQOp, StartPacketQueue, PushFlushPacket, PushPacket, globalFlushPacket,
      pqOpSerialBump]
  | pop =>
    simp only [applyPQOp, PopPacket, pqOpSerialBump]
    cases q.packets <;> simp
  | flushQueue =>
    simp [applyPQOp, FlushPacketQueue, pqOpSerialBump]

theorem pqOpSerialBump_nonneg (op : PQOp) : 0 ≤ pqOpSerialBump op := by
  cases op with
  | push p =>
    by_cases h : p.isFlush <;> simp [pqOpSerialBump, h]
  | pushNull idx => simp [pqOpSerialBump]
  | pushFlush => simp [pqOpSerialBump]
  | start => simp [pqOpSerialBump]
  | pop => simp [pqOpSerialBump]
  | flushQueue => simp [pqOpSerialBump]

theorem pqOpsSerialBump_cons (op : PQOp) (ops : List PQOp) :
    pqOpsSerialBump (op :: ops) = pqOpSerialBump op + pqOpsSerialBump ops := by
  simp [pqOpsSerialBump]

theorem applyPQOps_serial (nodeBytes : Int) (ops : List PQOp) (q : PacketQueue) :
    (applyPQOps nodeBytes ops q).serial = q.serial + pqOpsSerialBump ops := by
  induction ops generalizing q with
  | nil => simp [applyPQOps, pqOpsSerialBump]
  | cons op ops ih =>
    have hstep : applyPQOps nodeBytes (op :: ops) q
        = applyPQOps nodeBytes ops (applyPQOp nodeBytes q op) := by
      simp [applyPQOps]
    rw [hstep, ih, applyPQOp_serial, pqOpsSerialBump_cons]
    ring

theorem pqOpsSerialBump_nonneg (ops : List PQOp) : 0 ≤ pqOpsSerialBump ops := by
  induction ops with
  | nil => simp [pqOpsSerialBump]
  | cons op ops ih =>
    rw [pqOpsSerialBump_cons]
    have := pqOpSerialBump_nonneg op
    omega

/-- C1: PacketQueue serial discipline.  Pushing a data or null packet tags
it with the current serial and leaves the serial unchanged; pushing a flush
packet increments the serial first and tags the flush packet with the new
serial; FlushPacketQueue removes every packet and zeroes size, duration and
packet count while leaving the serial unchanged; over any operation
sequence the serial is monotonically non-decreasing and grows by exactly
the number of flush-packet pushes in the sequence. -/
theorem C1_packetQueue_serial_discipline (nodeBytes : Int) (q : PacketQueue)
    (p : AVPacketM) (ops : List PQOp) :
    ((PushPacket nodeBytes q p).serial
        = q.serial + (if p.isFlush then 1 else 0)) ∧
    ((PushPacket nodeBytes q p).packets
        = q.packets
            ++ [{ packet := p, serial := q.serial + (if p.isFlush then 1 else 0) }]) ∧
    (FlushPacketQueue q).packets = [] ∧
    (FlushPacketQueue q).size = 0 ∧
    (FlushPacketQueue q).duration = 0 ∧
    (FlushPacketQueue q).packetCount = 0 ∧
    (FlushPacketQueue q).serial = q.serial ∧
    (applyPQOps nodeBytes ops q).serial = q.serial + pqOpsSerialBump ops ∧
    q.serial ≤ (applyPQOps nodeBytes ops q).serial := by
  refine ⟨?_, ?_, ?_, ?_, ?_, ?_, ?_, ?_, ?_⟩
  · by_cases h : p.isFlush <;> simp [PushPacket, h]
  · by_cases h : p.isFlush <;> simp [PushPacket, h]
  · simp [FlushPacketQueue]
  · simp [FlushPacketQueue]
  · simp [FlushPacketQueue]
  · simp [FlushPacketQueue]
  · simp [FlushPacketQueue]
  · exact applyPQOps_serial nodeBytes ops q
  · rw [applyPQOps_serial]
    have := pqOpsSerialBump_nonneg ops
    omega

/-- The ring invariant of claim C9. -/
def fqInvariant (q : FrameQueue) : Prop :=
  0 ≤ q.count ∧ q.count ≤ q.capacity ∧ 0 ≤ q.count - q.readIndexShown ∧
    (q.readIndexShown = 0 ∨ q.readIndexShown = 1)

theorem fqStep_invariant {q q2 : FrameQueue} (h : fqInvariant q) (st : FQStep q q2) :
    fqInvariant q2 := by
  obtain ⟨h0, h1, h2, h3⟩ := h
  cases st with
  | commitWrite hw =>
    simp only [PeekWritableOk, Bool.and_eq_true, decide_eq_true_eq] at hw
    obtain ⟨hlt, -⟩ := hw
    refine ⟨?_, ?_, ?_, ?_⟩ <;> simp [NextWritable] <;> omega
  | advanceRead hr =>
    simp only [PeekReadableOk, Bool.and_eq_true, decide_eq_true_eq] at hr
    obtain ⟨hgt, -⟩ := hr
    unfold fqInvariant NextReadable
    split <;> refine ⟨?_, ?_, ?_, ?_⟩ <;> simp <;> omega

/-- C9: FrameQueue ring invariants.  Under the usage discipline in which
NextWritable is only invoked after a successful PeekWritableFromFrameQueue
and NextReadable only after a successful PeekReadableFromFrameQueue,
every state reachable from the initial empty queue satisfies
0 ≤ count ≤ capacity, count - readIndexShown ≥ 0, and readIndexShown is
0 or 1. -/
theorem C9_frameQueue_ring_invariants (capacity : Int) (keepLast : Bool)
    (q : FrameQueue) (hcap : 0 ≤ capacity)
    (h : FQReachable (initFrameQueue capacity keepLast) q) :
    0 ≤ q.count ∧ q.count ≤ q.capacity ∧ 0 ≤ q.count - q.readIndexShown ∧
      (q.readIndexShown = 0 ∨ q.readIndexShown = 1) := by
  have inv : fqInvariant q := by
    induction h with
    | refl =>
      refine ⟨by simp [initFrameQueue], ?_, by simp [initFrameQueue], by simp [initFrameQueue]⟩
      simp only [initFrameQueue, MAX_FRAME_QUEUE_COUNT]
      omega
    | step _ st ih => exact fqStep_invariant ih st
  exact inv

/-- Witness for C9: the initial video frame queue (capacity 4, keep-last)
satisfies the invariant. -/
theorem C9_frameQueue_ring_invariants_witness :
    0 ≤ (initFrameQueue 4 true).count ∧
    (initFrameQueue 4 true).count ≤ (initFrameQueue 4 true).capacity ∧
    0 ≤ (initFrameQueue 4 true).count - (initFrameQueue 4 true).readIndexShown ∧
    ((initFrameQueue 4 true).readIndexShown = 0 ∨
      (initFrameQueue 4 true).readIndexShown = 1) :=
  C9_frameQueue_ring_invariants 4 true (initFrameQueue 4 true) (by decide) FQReachable.refl

-- Evaluation lemmas for the double model.

theorem EDouble.add_val (a b : ℚ) : (EDouble.val a) + (EDouble.val b) = .val (a + b) := rfl

theorem EDouble.sub_val (a b : ℚ) : (EDouble.val a) - (EDouble.val b) = .val (a - b) := rfl

theorem EDouble.mul_val (a b : ℚ) : (EDouble.val a) * (EDouble.val b) = .val (a * b) := rfl

theorem EDouble.neg_val (a : ℚ) : -(EDouble.val a) = .val (-a) := rfl

theorem EDouble.abs_val (a : ℚ) : (EDouble.val a).abs = .val |a| := rfl

theorem EDouble.blt_val (a b : ℚ) : EDouble.blt (.val a) (.val b) = decide (a < b) := rfl

theorem EDouble.ble_val (a b : ℚ) : EDouble.ble (.val a) (.val b) = decide (a ≤ b) := rfl

theorem EDouble.isNaN_val (a : ℚ) : (EDouble.val a).isNaN = false := rfl

theorem fplMinE_val (a b : ℚ) : fplMinE (.val a) (.val b) = .val (min a b) := by
  by_cases h : a < b
  · simp [fplMinE, EDouble.blt, h, min_eq_left h.le]
  · simp [fplMinE, EDouble.blt, h, min_eq_right (not_lt.mp h)]

theorem fplMaxE_val (a b : ℚ) : fplMaxE (.val a) (.val b) = .val (max a b) := by
  by_cases h : b < a
  · simp [fplMaxE, EDouble.bgt, EDouble.blt, h, max_eq_left h.le]
  · simp [fplMaxE, EDouble.bgt, EDouble.blt, h, max_eq_right (not_lt.mp h)]

theorem ffmaxE_val (a b : ℚ) : ffmaxE (.val a) (.val b) = .val (max a b) := by
  by_cases h : b < a
  · simp [ffmaxE, EDouble.bgt, EDouble.blt, h, max_eq_left h.le]
  · simp [ffmaxE, EDouble.bgt, EDouble.blt, h, max_eq_right (not_lt.mp h)]

-- Concrete states used by witnesses and counterexamples.

/-- A clock anchored at zero with serial 0. -/
def baseClock : Clock :=
  { pts := .val 0, ptsDrift := .val 0, lastUpdated := .val 0
    speed := 1, serial := 0, isPaused := false }

/-- A valid stream at index 0 with a millisecond time base and 25 fps. -/
def baseStream : MediaStreamM :=
  { streamIndex := 0, isValid := true, attachedPic := false
    timeBase := 1/1000, avgFrameRateNum := 25, avgFrameRateDen := 1 }

/-- A decoder with an empty packet queue. -/
def baseDecoder : DecoderM :=
  { packetsQueue := initPacketQueue, isEOF := false, resumeSignaled := false }

/-- A quiescent player state. -/
def baseState : PlayerStateM :=
  { syncType := .AudioMaster, video := baseStream, audio := baseStream
    videoDecoder := baseDecoder, audioDecoder := baseDecoder
    videoClock := baseClock, audioClock := baseClock, externalClock := baseClock
    maxFrameDuration := .val 3600, isInfiniteBuffer := false, isPaused := false
    frameTimer := .val 0, readPauseReturn := 0, pauseNumFrames := 0
    pauseClock := .val 0, step := false
    seek := { pos := 0, rel := 0, isByte := false, isRequired := false }
    readerIsEOF := false }

/-- C10: with a video-master request and an invalid video stream,
GetMasterSyncType answers audio-master regardless of audio validity, and
GetMasterClock consequently reads the audio clock. -/
theorem C10_video_master_falls_back_to_audio (s : PlayerStateM) (time : EDouble)
    (hsync : s.syncType = AVSyncType.VideoMaster) (hvideo : s.video.isValid = false) :
    GetMasterSyncType s = AVSyncType.AudioMaster ∧
      GetMasterClock s time = GetAudioClockOf s time := by
  have h1 : GetMasterSyncType s = AVSyncType.AudioMaster := by
    simp [GetMasterSyncType, hsync, hvideo]
  exact ⟨h1, by simp [GetMasterClock, h1]⟩

/-- Witness for C10 at a concrete state whose audio stream is also invalid. -/
theorem C10_video_master_falls_back_to_audio_witness :
    GetMasterSyncType
        { baseState with syncType := .VideoMaster
                         video := { baseStream with isValid := false }
                         audio := { baseStream with isValid := false } }
      = AVSyncType.AudioMaster ∧
    GetMasterClock
        { baseState with syncType := .VideoMaster
                         video := { baseStream with isValid := false }
                         audio := { baseStream with isValid := false } } (.val 7)
      = GetAudioClockOf
          { baseState with syncType := .VideoMaster
                           video := { baseStream with isValid := false }
                           audio := { baseStream with isValid := false } } (.val 7) :=
  C10_video_master_falls_back_to_audio _ (.val 7) rfl rfl

/-- Counterexample to C3: the external clock references its own serial
field, so the referenced serial always equals the clock serial; yet right
after InitClock (pts and ptsDrift are NaN) GetClock returns NaN, refuting
that a matching serial forces a non-NaN reading. -/
theorem C3_counterexample :
    GetClock (InitClock (.val 0)) (InitClock (.val 0)).serial (.val 5) = EDouble.nan ∧
      (InitClock (.val 0)).isPaused = false := by
  exact ⟨rfl, rfl⟩

/-- C3 amended: GetClock returns NaN whenever the referenced queue serial
differs from the clock serial; when they agree it returns pts while paused
and the drift formula otherwise, which is non-NaN whenever the anchors
(ptsDrift, lastUpdated) and the current time are finite.  The converse of
the claim fails because the anchors are NaN after InitClock and after a
byte seek. -/
theorem C3_clock_read_nan_amended (c : Clock) (queueSerial : Int) (t : EDouble) :
    (queueSerial ≠ c.serial → GetClock c queueSerial t = .nan) ∧
    (queueSerial = c.serial → c.isPaused = true → GetClock c queueSerial t = c.pts) ∧
    (queueSerial = c.serial → c.isPaused = false →
      ∀ p l tv : ℚ, c.ptsDrift = .val p → c.lastUpdated = .val l → t = .val tv →
        GetClock c queueSerial t = .val (p + tv - (tv - l) * (1 - c.speed))) := by
  refine ⟨?_, ?_, ?_⟩
  · intro h
    simp [GetClock, h]
  · intro h hp
    simp [GetClock, h, hp]
  · intro h hp p l tv hdrift hlast htv
    simp [GetClock, h, hp, hdrift, hlast, htv, EDouble.add_val, EDouble.sub_val,
      EDouble.mul_val]

/-- Witness for C3 amended: a mismatching serial yields NaN. -/
theorem C3_clock_read_nan_amended_witness :
    GetClock baseClock 5 (.val 0) = EDouble.nan :=
  (C3_clock_read_nan_amended baseClock 5 (.val 0)).1 (by decide)

/-- A clock with serial 5, otherwise anchored at zero. -/
def c6clock : Clock := { baseClock with serial := 5 }

/-- A clock with serial 7, otherwise anchored at zero. -/
def c6slave : Clock := { baseClock with serial := 7 }

/-- Counterexample to C6: when this clock's reading is NaN but the slave's
reading is also NaN, the claim demands a snap (which would copy the slave
serial 7), yet SyncClockToSlave leaves the clock unchanged with serial 5. -/
theorem C6_counterexample :
    (GetClock c6clock 0 (.val 0)).isNaN = true ∧
    SyncClockToSlave c6clock c6slave 0 0 (.val 0) = c6clock ∧
    c6clock.serial ≠ c6slave.serial := by
  refine ⟨rfl, rfl, by decide⟩

/-- C6 amended: SyncClockToSlave snaps this clock to the slave (copying the
slave reading and serial) exactly when the slave reading is not NaN and
this clock's reading is NaN or differs from it by more than
AV_NOSYNC_THRESHOLD; in every other case the clock is unchanged. -/
theorem C6_sync_clock_to_slave_amended (c slave : Clock) (cq sq : Int) (t : EDouble) :
    ((GetClock slave sq t).isNaN = false ∧
        ((GetClock c cq t).isNaN = true ∨
          EDouble.bgt ((GetClock c cq t - GetClock slave sq t).abs)
            (.val AV_NOSYNC_THRESHOLD) = true) →
      SyncClockToSlave c slave cq sq t = SetClock c (GetClock slave sq t) slave.serial t) ∧
    ((GetClock slave sq t).isNaN = true ∨
        ((GetClock c cq t).isNaN = false ∧
          EDouble.bgt ((GetClock c cq t - GetClock slave sq t).abs)
            (.val AV_NOSYNC_THRESHOLD) = false) →
      SyncClockToSlave c slave cq sq t = c) := by
  constructor
  · rintro ⟨hs, hc⟩
    unfold SyncClockToSlave
    rw [if_pos]
    simp only [hs, Bool.not_false, Bool.true_and]
    rcases hc with hc | hc <;> simp [hc]
  · rintro (hs | ⟨hc, hd⟩)
    · unfold SyncClockToSlave
      rw [if_neg]
      simp [hs]
    · unfold SyncClockToSlave
      rw [if_neg]
      simp [hc, hd]

/-- Witness for C6 amended: a NaN reading with a finite slave reading snaps. -/
theorem C6_sync_clock_to_slave_amended_witness :
    SyncClockToSlave c6clock baseClock 0 0 (.val 1)
      = SetClock c6clock (GetClock baseClock 0 (.val 1)) baseClock.serial (.val 1) :=
  (C6_sync_clock_to_slave_amended c6clock baseClock 0 0 (.val 1)).1 ⟨rfl, Or.inl rfl⟩

/-- Counterexample to C4: with differing serials GetFrameDuration returns
0.0, not the first frame's duration (5 here). -/
theorem C4_counterexample :
    GetFrameDuration (.val 10)
        { pts := .val 1, duration := .val 5, serial := 1 }
        { pts := .val 2, duration := .val 1, serial := 2 } = .val 0 ∧
      EDouble.val 0 ≠ EDouble.val 5 := by
  exact ⟨rfl, by decide⟩

/-- C4 amended: GetFrameDuration returns next.pts - cur.pts when the serials
match and the gap is valid (not NaN, positive, at most maxFrameDuration);
cur.duration when the serials match but the gap is invalid; and 0.0 (not
cur.duration) when the serials differ. -/
theorem C4_frame_duration_amended (maxFrameDuration : EDouble) (cur next : FrameM) :
    (cur.serial = next.serial →
      (next.pts - cur.pts).isNaN = false →
      (next.pts - cur.pts).ble (.val 0) = false →
      EDouble.bgt (next.pts - cur.pts) maxFrameDuration = false →
        GetFrameDuration maxFrameDuration cur next = next.pts - cur.pts) ∧
    (cur.serial = next.serial →
      ((next.pts - cur.pts).isNaN = true ∨ (next.pts - cur.pts).ble (.val 0) = true ∨
        EDouble.bgt (next.pts - cur.pts) maxFrameDuration = true) →
        GetFrameDuration maxFrameDuration cur next = cur.duration) ∧
    (cur.serial ≠ next.serial → GetFrameDuration maxFrameDuration cur next = .val 0) := by
  refine ⟨?_, ?_, ?_⟩
  · intro hser h1 h2 h3
    simp [GetFrameDuration, hser, h1, h2, h3]
  · intro hser h
    rcases h with h | h | h <;> simp [GetFrameDuration, hser, h]
  · intro hser
    simp [GetFrameDuration, hser]

/-- Witness for C4 amended: a valid one-second gap between same-serial
frames. -/
theorem C4_frame_duration_amended_witness :
    GetFrameDuration (.val 10)
        { pts := .val 1, duration := .val 1, serial := 3 }
        { pts := .val 2, duration := .val 1, serial := 3 }
      = EDouble.val 2 - EDouble.val 1 :=
  (C4_frame_duration_amended (.val 10)
      { pts := .val 1, duration := .val 1, serial := 3 }
      { pts := .val 2, duration := .val 1, serial := 3 }).1
    rfl rfl
    (by norm_num [EDouble.sub_val, EDouble.ble_val])
    (by norm_num [EDouble.sub_val, EDouble.bgt, EDouble.blt_val])

theorem EDouble.sub_isNaN (a b : EDouble) (h : a.isNaN = true ∨ b.isNaN = true) :
    (a - b).isNaN = true := by
  cases a <;> cases b <;> simp_all [EDouble.isNaN, HSub.hSub, Sub.sub, EDouble.sub]

/-- C2: ComputeVideoDelay.  With a video master the delay is returned
unchanged.  Otherwise, with diff the video minus master clock reading and
threshold the last duration clamped to [0.04, 0.1]: a NaN diff or a diff at
least maxFrameDuration in magnitude returns the delay unchanged; diff at
most -threshold shrinks to max(0, delay + diff); diff at least threshold
stretches to delay + diff when delay exceeds 0.1 and doubles the delay
otherwise; and a diff below threshold in magnitude returns the delay. -/
theorem C2_compute_video_delay (s : PlayerStateM) (t delay : EDouble)
    (d vc mc mfd : ℚ) :
    (GetMasterSyncType s = AVSyncType.VideoMaster →
      ComputeVideoDelay s t delay = delay) ∧
    ((GetVideoClockOf s t).isNaN = true ∨ (GetMasterClock s t).isNaN = true →
      ComputeVideoDelay s t delay = delay) ∧
    (GetMasterSyncType s ≠ AVSyncType.VideoMaster →
      GetVideoClockOf s t = .val vc → GetMasterClock s t = .val mc →
      delay = .val d → s.maxFrameDuration = .val mfd →
      (|vc - mc| ≥ mfd → ComputeVideoDelay s t delay = delay) ∧
      (|vc - mc| < mfd →
        vc - mc ≤ -(max AV_SYNC_THRESHOLD_MIN (min AV_SYNC_THRESHOLD_MAX d)) →
        ComputeVideoDelay s t delay = .val (max 0 (d + (vc - mc)))) ∧
      (|vc - mc| < mfd →
        vc - mc ≥ max AV_SYNC_THRESHOLD_MIN (min AV_SYNC_THRESHOLD_MAX d) →
        d > AV_SYNC_FRAMEDUP_THRESHOLD →
        ComputeVideoDelay s t delay = .val (d + (vc - mc))) ∧
      (|vc - mc| < mfd →
        vc - mc ≥ max AV_SYNC_THRESHOLD_MIN (min AV_SYNC_THRESHOLD_MAX d) →
        d ≤ AV_SYNC_FRAMEDUP_THRESHOLD →
        ComputeVideoDelay s t delay = .val (2 * d)) ∧
      (|vc - mc| < mfd →
        |vc - mc| < max AV_SYNC_THRESHOLD_MIN (min AV_SYNC_THRESHOLD_MAX d) →
        ComputeVideoDelay s t delay = delay)) := by
  refine ⟨?_, ?_, ?_⟩
  · intro h
    simp [ComputeVideoDelay, h]
  · intro h
    by_cases hm : GetMasterSyncType s = AVSyncType.VideoMaster
    · simp [ComputeVideoDelay, hm]
    · have hnan : ((GetVideoClockOf s t) - (GetMasterClock s t)).isNaN = true :=
        EDouble.sub_isNaN _ _ h
      simp [ComputeVideoDelay, hm, hnan]
  · intro hm hvc hmc hd hmfd
    have hthr : (0 : ℚ) < max AV_SYNC_THRESHOLD_MIN (min AV_SYNC_THRESHOLD_MAX d) :=
      lt_of_lt_of_le (by norm_num [AV_SYNC_THRESHOLD_MIN]) (le_max_left _ _)
    refine ⟨?_, ?_, ?_, ?_, ?_⟩
    · intro h1
      have hlt : ¬(|vc - mc| < mfd) := not_lt.mpr h1
      simp [ComputeVideoDelay, hm, hvc, hmc, hd, hmfd, fplMinE_val, fplMaxE_val,
        EDouble.sub_val, EDouble.abs_val, EDouble.blt_val, hlt]
    · intro h1 h2
      simp [ComputeVideoDelay, hm, hvc, hmc, hd, hmfd, fplMinE_val, fplMaxE_val,
        ffmaxE_val, EDouble.sub_val, EDouble.add_val, EDouble.abs_val,
        EDouble.blt_val, EDouble.ble_val, EDouble.neg_val, EDouble.isNaN_val, h1, h2]
    · intro h1 h2 h3
      have hn1 : ¬(vc - mc ≤ -(max AV_SYNC_THRESHOLD_MIN (min AV_SYNC_THRESHOLD_MAX d))) := by
        push_neg
        linarith
      simp [ComputeVideoDelay, hm, hvc, hmc, hd, hmfd, fplMinE_val, fplMaxE_val,
        EDouble.sub_val, EDouble.add_val, EDouble.abs_val, EDouble.blt_val,
        EDouble.ble_val, EDouble.neg_val, EDouble.bge, EDouble.bgt, EDouble.isNaN_val,
        h1, h2, h3, hn1]
    · intro h1 h2 h3
      have hn1 : ¬(vc - mc ≤ -(max AV_SYNC_THRESHOLD_MIN (min AV_SYNC_THRESHOLD_MAX d))) := by
        push_neg
        linarith
      have hn3 : ¬(AV_SYNC_FRAMEDUP_THRESHOLD < d) := not_lt.mpr h3
      simp [ComputeVideoDelay, hm, hvc, hmc, hd, hmfd, fplMinE_val, fplMaxE_val,
        EDouble.sub_val, EDouble.add_val, EDouble.mul_val, EDouble.abs_val,
        EDouble.blt_val, EDouble.ble_val, EDouble.neg_val, EDouble.bge, EDouble.bgt,
        EDouble.isNaN_val, h1, h2, hn1, hn3]
    · intro h1 h2
      obtain ⟨hlo, hhi⟩ := abs_lt.mp h2
      have hn1 : ¬(vc - mc ≤ -(max AV_SYNC_THRESHOLD_MIN (min AV_SYNC_THRESHOLD_MAX d))) :=
        not_le.mpr hlo
      have hn2 : ¬(max AV_SYNC_THRESHOLD_MIN (min AV_SYNC_THRESHOLD_MAX d) ≤ vc - mc) :=
        not_le.mpr hhi
      simp [ComputeVideoDelay, hm, hvc, hmc, hd, hmfd, fplMinE_val, fplMaxE_val,
        EDouble.sub_val, EDouble.abs_val, EDouble.blt_val, EDouble.ble_val,
        EDouble.neg_val, EDouble.bge, h1, hn1, hn2]

/-- The state of the C2 witness: paused clocks reading 0 (video) and 1
(audio masterost). -/
def c2state : PlayerStateM :=
  { baseState with videoClock := { baseClock with isPaused := true }
                   audioClock := { baseClock with isPaused := true, pts := .val 1 } }

/-- Witness for C2: a video clock one second early with one-second frames
shrinks the delay to max(0, 1 - 1). -/
theorem C2_compute_video_delay_witness :
    ComputeVideoDelay c2state (.val 0) (.val 1) = .val (max 0 (1 + (0 - 1))) :=
  (((C2_compute_video_delay c2state (.val 0) (.val 1) 1 0 1 3600).2.2
      (by decide) rfl rfl rfl rfl).2.1)
    (by norm_num)
    (by norm_num [AV_SYNC_THRESHOLD_MIN, AV_SYNC_THRESHOLD_MAX])

/-- Formalisation of claim C7's wording for a single stream: enough packets
when the stream index is invalid, the attached-picture flag is set, or the
queue holds at least 25 packets and at least one second of queued duration
in the stream time-base. -/
def claimStreamHasEnoughPackets (stream : MediaStreamM) (streamIndex : Int)
    (q : PacketQueue) : Bool :=
  decide (streamIndex < 0) || stream.attachedPic ||
    (decide (q.packetCount ≥ 25) && decide (stream.timeBase * (q.duration : ℚ) ≥ 1))

/-- Formalisation of claim C7's wording for the reader gate: sleep exactly
when the summed byte size exceeds 16 MiB or both streams report enough
packets. -/
def claimReaderShouldSleep (s : PlayerStateM) : Bool :=
  decide (s.audioDecoder.packetsQueue.size + s.videoDecoder.packetsQueue.size
      > 16 * 1024 * 1024) ||
  (claimStreamHasEnoughPackets s.audio s.audio.streamIndex s.audioDecoder.packetsQueue &&
   claimStreamHasEnoughPackets s.video s.video.streamIndex s.videoDecoder.packetsQueue)

/-- A data packet of 100 bytes and 2 time-base units of duration. -/
def c7packet : AVPacketM :=
  { size := 100, duration := 2, streamIndex := 0, isFlush := false }

/-- An audio queue holding exactly 25 such packets. -/
def c7queue : PacketQueue :=
  applyPQOps 1 (List.replicate 25 (PQOp.push c7packet)) initPacketQueue

/-- The C7 counterexample state: a valid audio stream (time base 1) whose
queue holds 25 packets of 50 seconds total duration, and an invalid video
stream index. -/
def c7state : PlayerStateM :=
  { baseState with
      audio := { baseStream with timeBase := 1 }
      video := { baseStream with streamIndex := -1, isValid := false }
      audioDecoder := { baseDecoder with packetsQueue := c7queue } }

/-- Counterexample to C7: with exactly 25 queued audio packets (the claim's
"at least 25") and ample duration, and an invalid video stream, the claim
says the reader sleeps, but the code's gate (strictly more than 25) does
not fire. -/
theorem C7_counterexample :
    ReaderShouldSleep c7state = false ∧ claimReaderShouldSleep c7state = true ∧
      c7state.audioDecoder.packetsQueue.packetCount = 25 := by
  refine ⟨by decide, ?_, by decide⟩
  have hq : c7state.audioDecoder.packetsQueue.packetCount = 25 := by decide
  have hd : c7state.audioDecoder.packetsQueue.duration = 50 := by decide
  have hsz : c7state.audioDecoder.packetsQueue.size
      + c7state.videoDecoder.packetsQueue.size = 2525 := by decide
  simp only [claimReaderShouldSleep, claimStreamHasEnoughPackets, hq, hd]
  norm_num [c7state, baseStream]

/-- The per-stream predicate the code actually implements, in the words of
the amended claim: enough packets when the stream index is invalid, the
attached-picture flag is set, or the queue holds at least 26 packets and
its total queued duration is either unknown (zero) or strictly more than
one second in the stream time-base. -/
def amendedStreamHasEnoughPackets (stream : MediaStreamM) (streamIndex : Int)
    (q : PacketQueue) : Prop :=
  streamIndex < 0 ∨ stream.attachedPic = true ∨
    (26 ≤ q.packetCount ∧ (q.duration = 0 ∨ 1 < stream.timeBase * (q.duration : ℚ)))

/-- C7 amended: the reader sleeps exactly when the summed queue byte size
exceeds 16 MiB with infinite buffering off, or both streams satisfy the
amended enough-packets predicate. -/
theorem C7_backpressure_gate_amended (s : PlayerStateM) :
    ReaderShouldSleep s = true ↔
      ((s.isInfiniteBuffer = false ∧
          s.audioDecoder.packetsQueue.size + s.videoDecoder.packetsQueue.size
            > 16 * 1024 * 1024) ∨
        (amendedStreamHasEnoughPackets s.audio s.audio.streamIndex
            s.audioDecoder.packetsQueue ∧
          amendedStreamHasEnoughPackets s.video s.video.streamIndex
            s.videoDecoder.packetsQueue)) := by
  have h26 : ∀ c : Int, MIN_PACKET_FRAMES < c ↔ 26 ≤ c := by
    intro c
    simp only [MIN_PACKET_FRAMES]
    omega
  simp only [ReaderShouldSleep, StreamHasEnoughPackets, amendedStreamHasEnoughPackets,
    MAX_PACKET_QUEUE_SIZE, Bool.or_eq_true, Bool.and_eq_true, Bool.not_eq_true',
    decide_eq_true_eq, h26]
  tauto

/-- An audio queue holding 20 data packets. -/
def c8queue : PacketQueue :=
  applyPQOps 1 (List.replicate 20 (PQOp.push c7packet)) initPacketQueue

/-- The C8 counterexample state: video stream invalid (queue empty), audio
stream valid with 20 queued packets, external clock at speed 1. -/
def c8state : PlayerStateM :=
  { baseState with
      video := { baseStream with isValid := false }
      audioDecoder := { baseDecoder with packetsQueue := c8queue } }

/-- Counterexample to C8: the video queue holds 0 ≤ 2 packets, so the claim
demands a speed decrease to 0.999, but the stream is invalid, so the code
takes the grow branch and raises the speed to 1.001. -/
theorem C8_counterexample :
    (UpdateExternalClockSpeed c8state (.val 0)).externalClock.speed = 1001/1000 ∧
    c8state.videoDecoder.packetsQueue.packetCount ≤ EXTERNAL_CLOCK_MIN_FRAMES ∧
    c8state.externalClock.speed = 1 ∧
    (1001/1000 : ℚ) ≠ max EXTERNAL_CLOCK_SPEED_MIN (1 - EXTERNAL_CLOCK_SPEED_STEP) := by
  have hcount : c8state.audioDecoder.packetsQueue.packetCount = 20 := by decide
  refine ⟨?_, by decide, rfl, ?_⟩
  · simp only [UpdateExternalClockSpeed, hcount]
    norm_num [c8state, baseState, baseStream, baseDecoder, baseClock,
      EXTERNAL_CLOCK_MIN_FRAMES, EXTERNAL_CLOCK_MAX_FRAMES,
      EXTERNAL_CLOCK_SPEED_MAX, EXTERNAL_CLOCK_SPEED_STEP, SetClockSpeed]
  · norm_num [EXTERNAL_CLOCK_SPEED_MIN, EXTERNAL_CLOCK_SPEED_STEP]

/-- One external-clock speed transition: some player state carrying the old
speed is updated by UpdateExternalClockSpeed at some time. -/
inductive ExtSpeedStep : ℚ → ℚ → Prop where
  | upd (s : PlayerStateM) (t : EDouble) :
      ExtSpeedStep s.externalClock.speed
        (UpdateExternalClockSpeed s t).externalClock.speed

theorem update_external_speed_eq (s : PlayerStateM) (c : Clock) (qs : Int)
    (v : ℚ) (t : EDouble) :
    ({ s with externalClock := (SetClockSpeed c qs v t) } : PlayerStateM).externalClock.speed
      = v := rfl

theorem extSpeedStep_bounds {a b : ℚ} (h : ExtSpeedStep a b)
    (ha : EXTERNAL_CLOCK_SPEED_MIN ≤ a ∧ a ≤ EXTERNAL_CLOCK_SPEED_MAX) :
    EXTERNAL_CLOCK_SPEED_MIN ≤ b ∧ b ≤ EXTERNAL_CLOCK_SPEED_MAX := by
  obtain ⟨hlo, hhi⟩ := ha
  simp only [EXTERNAL_CLOCK_SPEED_MIN, EXTERNAL_CLOCK_SPEED_MAX] at hlo hhi ⊢
  rcases h with ⟨s, t⟩
  unfold UpdateExternalClockSpeed
  split_ifs with h1 h2
  · rw [update_external_speed_eq]
    simp only [EXTERNAL_CLOCK_SPEED_MIN, EXTERNAL_CLOCK_SPEED_MAX,
      EXTERNAL_CLOCK_SPEED_STEP]
    constructor
    · exact le_max_left _ _
    · apply max_le
      · norm_num
      · linarith
  · rw [update_external_speed_eq]
    simp only [EXTERNAL_CLOCK_SPEED_MIN, EXTERNAL_CLOCK_SPEED_MAX,
      EXTERNAL_CLOCK_SPEED_STEP]
    constructor
    · apply le_min
      · norm_num
      · linarith
    · exact min_le_left _ _
  · by_cases h3 : s.externalClock.speed = 1
    · rw [if_neg (by simp [h3])]
      exact ⟨hlo, hhi⟩
    · rw [if_pos h3, update_external_speed_eq]
      simp only [EXTERNAL_CLOCK_SPEED_STEP]
      rcases lt_or_gt_of_ne h3 with hlt | hgt
      · have habs : |1 - s.externalClock.speed| = 1 - s.externalClock.speed :=
          abs_of_pos (by linarith)
        rw [habs]
        have hne : (1 : ℚ) - s.externalClock.speed ≠ 0 := by linarith
        rw [mul_div_assoc, div_self hne]
        constructor
        · linarith
        · linarith
      · have habs : |1 - s.externalClock.speed| = -(1 - s.externalClock.speed) :=
          abs_of_neg (by linarith)
        rw [habs]
        have hne : (1 : ℚ) - s.externalClock.speed ≠ 0 := by linarith
        rw [div_neg, mul_div_assoc, div_self hne]
        constructor
        · linarith
        · linarith

/-- C8 amended: the shrink branch fires only for a valid stream with at
most 2 queued packets; the grow branch when each stream is invalid or has
more than 10 queued packets; otherwise a speed other than 1 is nudged
toward 1 by 0.001; and every speed reachable from 1.0 through these
updates stays within [0.900, 1.010]. -/
theorem C8_external_clock_speed_amended (s : PlayerStateM) (t : EDouble) :
    ((s.video.isValid = true ∧
        s.videoDecoder.packetsQueue.packetCount ≤ EXTERNAL_CLOCK_MIN_FRAMES) ∨
     (s.audio.isValid = true ∧
        s.audioDecoder.packetsQueue.packetCount ≤ EXTERNAL_CLOCK_MIN_FRAMES) →
      (UpdateExternalClockSpeed s t).externalClock.speed
        = max EXTERNAL_CLOCK_SPEED_MIN
            (s.externalClock.speed - EXTERNAL_CLOCK_SPEED_STEP)) ∧
    (¬((s.video.isValid = true ∧
          s.videoDecoder.packetsQueue.packetCount ≤ EXTERNAL_CLOCK_MIN_FRAMES) ∨
       (s.audio.isValid = true ∧
          s.audioDecoder.packetsQueue.packetCount ≤ EXTERNAL_CLOCK_MIN_FRAMES)) →
     ((s.video.isValid = false ∨
          s.videoDecoder.packetsQueue.packetCount > EXTERNAL_CLOCK_MAX_FRAMES) ∧
      (s.audio.isValid = false ∨
          s.audioDecoder.packetsQueue.packetCount > EXTERNAL_CLOCK_MAX_FRAMES)) →
      (UpdateExternalClockSpeed s t).externalClock.speed
        = min EXTERNAL_CLOCK_SPEED_MAX
            (s.externalClock.speed + EXTERNAL_CLOCK_SPEED_STEP)) ∧
    (¬((s.video.isValid = true ∧
          s.videoDecoder.packetsQueue.packetCount ≤ EXTERNAL_CLOCK_MIN_FRAMES) ∨
       (s.audio.isValid = true ∧
          s.audioDecoder.packetsQueue.packetCount ≤ EXTERNAL_CLOCK_MIN_FRAMES)) →
     ¬((s.video.isValid = false ∨
          s.videoDecoder.packetsQueue.packetCount > EXTERNAL_CLOCK_MAX_FRAMES) ∧
       (s.audio.isValid = false ∨
          s.audioDecoder.packetsQueue.packetCount > EXTERNAL_CLOCK_MAX_FRAMES)) →
     s.externalClock.speed ≠ 1 →
      (UpdateExternalClockSpeed s t).externalClock.speed
        = s.externalClock.speed
            + EXTERNAL_CLOCK_SPEED_STEP * (1 - s.externalClock.speed)
                / |1 - s.externalClock.speed|) ∧
    (¬((s.video.isValid = true ∧
          s.videoDecoder.packetsQueue.packetCount ≤ EXTERNAL_CLOCK_MIN_FRAMES) ∨
       (s.audio.isValid = true ∧
          s.audioDecoder.packetsQueue.packetCount ≤ EXTERNAL_CLOCK_MIN_FRAMES)) →
     ¬((s.video.isValid = false ∨
          s.videoDecoder.packetsQueue.packetCount > EXTERNAL_CLOCK_MAX_FRAMES) ∧
       (s.audio.isValid = false ∨
          s.audioDecoder.packetsQueue.packetCount > EXTERNAL_CLOCK_MAX_FRAMES)) →
     s.externalClock.speed = 1 →
      (UpdateExternalClockSpeed s t).externalClock.speed = 1) ∧
    (∀ v : ℚ, Relation.ReflTransGen ExtSpeedStep 1 v →
      EXTERNAL_CLOCK_SPEED_MIN ≤ v ∧ v ≤ EXTERNAL_CLOCK_SPEED_MAX) := by
  have hshrink : ((s.video.isValid = true ∧
        s.videoDecoder.packetsQueue.packetCount ≤ EXTERNAL_CLOCK_MIN_FRAMES) ∨
      (s.audio.isValid = true ∧
        s.audioDecoder.packetsQueue.packetCount ≤ EXTERNAL_CLOCK_MIN_FRAMES)) ↔
      ((s.video.isValid &&
          decide (s.videoDecoder.packetsQueue.packetCount ≤ EXTERNAL_CLOCK_MIN_FRAMES)) ||
       (s.audio.isValid &&
          decide (s.audioDecoder.packetsQueue.packetCount ≤ EXTERNAL_CLOCK_MIN_FRAMES)))
        = true := by
    simp [Bool.or_eq_true, Bool.and_eq_true]
  have hgrow : (((s.video.isValid = false ∨
        s.videoDecoder.packetsQueue.packetCount > EXTERNAL_CLOCK_MAX_FRAMES) ∧
      (s.audio.isValid = false ∨
        s.audioDecoder.packetsQueue.packetCount > EXTERNAL_CLOCK_MAX_FRAMES))) ↔
      ((!s.video.isValid ||
          decide (s.videoDecoder.packetsQueue.packetCount > EXTERNAL_CLOCK_MAX_FRAMES)) &&
       (!s.audio.isValid ||
          decide (s.audioDecoder.packetsQueue.packetCount > EXTERNAL_CLOCK_MAX_FRAMES)))
        = true := by
    simp [Bool.or_eq_true, Bool.and_eq_true, Bool.not_eq_true']
  refine ⟨?_, ?_, ?_, ?_, ?_⟩
  · intro h
    rw [hshrink] at h
    simp [UpdateExternalClockSpeed, h, SetClockSpeed]
  · intro hns hg
    rw [hshrink] at hns
    rw [hgrow] at hg
    have hns2 := Bool.not_eq_true _ ▸ hns
    simp [UpdateExternalClockSpeed, Bool.eq_false_iff.mpr hns, hg, SetClockSpeed]
  · intro hns hng hsp
    rw [hshrink] at hns
    rw [hgrow] at hng
    simp [UpdateExternalClockSpeed, Bool.eq_false_iff.mpr hns, Bool.eq_false_iff.mpr hng,
      hsp, SetClockSpeed]
  · intro hns hng hsp
    rw [hshrink] at hns
    rw [hgrow] at hng
    simp [UpdateExternalClockSpeed, Bool.eq_false_iff.mpr hns, Bool.eq_false_iff.mpr hng,
      hsp, SetClockSpeed]
  · intro v hv
    induction hv with
    | refl =>
      constructor <;> norm_num [EXTERNAL_CLOCK_SPEED_MIN, EXTERNAL_CLOCK_SPEED_MAX]
    | tail _ hstep ih => exact extSpeedStep_bounds hstep ih

/-- Witness for C8 amended: the base state (both streams valid, queues
empty) takes the shrink branch. -/
theorem C8_external_clock_speed_amended_witness :
    (UpdateExternalClockSpeed baseState (.val 0)).externalClock.speed
      = max EXTERNAL_CLOCK_SPEED_MIN
          (baseState.externalClock.speed - EXTERNAL_CLOCK_SPEED_STEP) :=
  (C8_external_clock_speed_amended baseState (.val 0)).1 (Or.inl ⟨rfl, by decide⟩)

/-- The C5 counterexample state: reader at EOF with a pending
(time-based, absolute) seek request, not paused. -/
def c5state : PlayerStateM :=
  { baseState with
      readerIsEOF := true
      seek := { pos := 5000000, rel := 0, isByte := false, isRequired := true } }

/-- Counterexample to C5: after a failed seek (facade result -1) the
reader's EOF flag does not keep its previous value; the code clears it. -/
theorem C5_counterexample :
    c5state.readerIsEOF = true ∧
    (ReaderSeekStep 1 c5state (-1) (.val 0)).readerIsEOF = false := by
  exact ⟨rfl, rfl⟩

/-- C5 amended: when the facade seek fails, no decoder packet queue is
flushed, no flush packet is pushed, no clock is set and no decoder is
resumed; but the seek request and the reader's EOF flag are both cleared
unconditionally, and a paused player is additionally stepped one frame.
For an unpaused player the result differs from the previous state exactly
in seek.isRequired and readerIsEOF. -/
theorem C5_seek_failure_amended (nodeBytes : Int) (s : PlayerStateM)
    (seekResult : Int) (t : EDouble)
    (hreq : s.seek.isRequired = true) (hfail : seekResult < 0) :
    (s.isPaused = false →
      ReaderSeekStep nodeBytes s seekResult t
        = { s with seek := { s.seek with isRequired := false }, readerIsEOF := false }) ∧
    (s.isPaused = true →
      (ReaderSeekStep nodeBytes s seekResult t).step = true) := by
  constructor
  · intro hp
    simp [ReaderSeekStep, hreq, hfail, hp]
  · intro hp
    simp [ReaderSeekStep, hreq, hfail, hp, StepToNextFrame]

/-- Witness for C5 amended at the concrete failed-seek state. -/
theorem C5_seek_failure_amended_witness :
    ReaderSeekStep 1 c5state (-1) (.val 0)
      = { c5state with
            seek := { c5state.seek with isRequired := false }
            readerIsEOF := false } :=
  (C5_seek_failure_amended 1 c5state (-1) (.val 0) rfl (by decide)).1 rfl
